import Mathlib

/-
Verification of the dingo-store per-region document/vector service layer.

The definitions below are a shallow embedding of:
  * vector/vector_index_flat.cc          (VectorIndexFlat)
  * server/document_service.cc           (DocumentServiceImpl and its validators)
  * the store::Region timestamp setters  (region meta header)

Machine integers (int64_t, uint32_t) are modelled as Int/Nat: none of the
embedded code paths rely on wrap-around.  Float radii are modelled as ℚ; the
only arithmetic performed on them by the embedded code is the exact operation
1.0f - r.  Helper routines that live in translation units outside the sources
(ServiceHelper, Storage, DocumentCodec, VectorIndexUtils, faiss) are modelled
from the specification and are marked as such; their outcomes are passed in
as explicit parameters where only their status matters.
-/

namespace Dingo

/-- Error codes from proto/error.pb used by the embedded code paths. -/
inductive Errno where
  | ok
  | eillegalParamteters
  | edocumentEmpty
  | edocumentExceedMaxBatchCount
  | edocumentExceedMaxRequestSize
  | erequestFull
  | eregionNotFound
  | edocumentIndexNotReady
  | edocumentIndexBuildError
  | evectorInvalid
  | evectorIdDuplicated
  | ekeyEmpty
  | erangeInvalid
  | einternal
  | eupstream (n : Nat)
  deriving DecidableEq, Repr

/-- Embedding of butil::Status: an error code plus a message. -/
structure Status where
  code : Errno
  msg : String
  deriving DecidableEq, Repr

/-- Embedding of butil::Status::OK(). -/
def Status.OK : Status := ⟨Errno.ok, ""⟩

/-- Embedding of pb::common::MetricType. -/
inductive MetricType where
  | none
  | l2
  | innerProduct
  | cosine
  deriving DecidableEq, Repr

/-- A vector payload (the float components, modelled over ℚ). -/
def Vec : Type := List ℚ

instance : DecidableEq Vec := by unfold Vec; infer_instance

instance : Repr Vec := inferInstanceAs (Repr (List ℚ))

/-- Modelled from the spec: VectorIndexUtils::CheckVectorDimension
(vector_index_utils.cc is not among the sources) checks that every vector of
the batch has the index dimension. -/
def checkVectorDimension (batch : List (Int × Vec)) (dim : Nat) : Bool :=
  batch.all (fun e => e.2.length == dim)

/-- Modelled from the spec: VectorIndexUtils::ExtractVectorValue
(vector_index_utils.cc is not among the sources) copies the raw components
and, when the normalize flag is set, normalizes each vector first
("cosine = normalize + inner-product").  The normalization function itself is
kept as the parameter normalizeVec. -/
def extractVectorValue (normalizeVec : Vec → Vec) (normalize : Bool) (v : Vec) : Vec :=
  if normalize then normalizeVec v else v

/-- Modelled from the spec: the per-batch form of ExtractVectorValue. -/
def extractVectorValues (normalizeVec : Vec → Vec) (normalize : Bool)
    (batch : List (Int × Vec)) : List Vec :=
  batch.map (fun e => extractVectorValue normalizeVec normalize e.2)

/-- Modelled from the spec: VectorIndexUtils::ExtractVectorId collects the ids
of a batch in order. -/
def extractVectorIds (batch : List (Int × Vec)) : List Int :=
  batch.map Prod.fst

/-- State of a VectorIndexFlat: the configured metric, dimension, the
normalize flag, the metric of the underlying raw faiss index, and the
contents of the faiss::IndexIDMap2 as a list of (user id, stored vector)
entries in insertion order. -/
structure VectorIndexFlat where
  metric_type : MetricType
  dimension : Nat
  normalize : Bool
  rawMetric : MetricType
  entries : List (Int × Vec)
  deriving DecidableEq, Repr

namespace VectorIndexFlat

/-- Embedding of the VectorIndexFlat constructor: picks the raw faiss index
and the normalize flag from the requested metric type (unknown metric types
fall back to an L2 raw index). -/
def new (metric : MetricType) (dim : Nat) : VectorIndexFlat :=
  if metric = MetricType.l2 then ⟨metric, dim, false, MetricType.l2, []⟩
  else if metric = MetricType.innerProduct then ⟨metric, dim, false, MetricType.innerProduct, []⟩
  else if metric = MetricType.cosine then ⟨metric, dim, true, MetricType.innerProduct, []⟩
  else ⟨metric, dim, false, MetricType.l2, []⟩

/-- Embedding of VectorIndexFlat::GetExistVectorIds: the ids of the batch
that are present in the rev_map of the IndexIDMap2. -/
def GetExistVectorIds (s : VectorIndexFlat) (ids : List Int) : List Int :=
  ids.filter (fun i => s.entries.any (fun e => e.1 == i))

/-- Embedding of faiss::IndexIDMap2::remove_ids with an IDSelectorBatch:
every entry whose id is in the selector is removed. -/
def removeIds (entries : List (Int × Vec)) (sel : List Int) : List (Int × Vec) :=
  entries.filter (fun e => !(sel.contains e.1))

/-- Embedding of VectorIndexFlat::AddOrUpsert: reject an empty batch, check
dimensions, extract ids, reject duplicated ids, extract (possibly
normalized) values, then under the write lock first remove every id that
already exists and finally add_with_ids the whole batch. -/
def AddOrUpsert (normalizeVec : Vec → Vec) (s : VectorIndexFlat)
    (vector_with_ids : List (Int × Vec)) : Status × VectorIndexFlat :=
  if vector_with_ids.isEmpty then
    (⟨Errno.eillegalParamteters, "vector_with_ids is empty"⟩, s)
  else if ¬ checkVectorDimension vector_with_ids s.dimension then
    (⟨Errno.eillegalParamteters, "dimension not match"⟩, s)
  else
    let ids := extractVectorIds vector_with_ids
    if ¬ ids.Nodup then
      (⟨Errno.evectorIdDuplicated, "vector id duplicated"⟩, s)
    else
      let vector_values := extractVectorValues normalizeVec s.normalize vector_with_ids
      let afterRemove :=
        if s.entries.isEmpty then s.entries
        else
          let internal_ids := s.GetExistVectorIds ids
          if internal_ids.isEmpty then s.entries
          else removeIds s.entries internal_ids
      (Status.OK, { s with entries := afterRemove ++ ids.zip vector_values })

/-- Trace of one VectorIndexFlat::Search call: the returned status, the
filled results, and the query values handed to index_id_map2_->search
(Option.none when the underlying index is never touched). -/
structure SearchTrace where
  status : Status
  results : List (Int × ℚ)
  queryPassed : Option (List Vec)
  deriving DecidableEq, Repr

/-- Embedding of VectorIndexFlat::Search.  The underlying faiss search
together with FillSearchResult is the parameter rawSearch (faiss is outside
the sources).  Mirrors the source order: empty-batch check, the early
return on topk <= 0, dimension check, then the index traversal. -/
def Search (normalizeVec : Vec → Vec)
    (rawSearch : List (Int × Vec) → List Vec → Nat → List (Int × ℚ))
    (s : VectorIndexFlat) (vector_with_ids : List (Int × Vec)) (topk : Nat) : SearchTrace :=
  if vector_with_ids.isEmpty then
    ⟨⟨Errno.eillegalParamteters, "vector_with_ids is empty"⟩, [], Option.none⟩
  else if topk = 0 then ⟨Status.OK, [], Option.none⟩
  else if ¬ checkVectorDimension vector_with_ids s.dimension then
    ⟨⟨Errno.eillegalParamteters, "dimension not match"⟩, [], Option.none⟩
  else
    let vector_values := extractVectorValues normalizeVec s.normalize vector_with_ids
    ⟨Status.OK, rawSearch s.entries vector_values topk, Option.some vector_values⟩

/-- Trace of one VectorIndexFlat::RangeSearch call: the returned status and
the radius handed to index_id_map2_->range_search (Option.none when the
underlying traversal is never reached). -/
structure RangeSearchTrace where
  status : Status
  radiusPassed : Option ℚ
  deriving DecidableEq, Repr

/-- Embedding of VectorIndexFlat::RangeSearch: empty-batch check, dimension
check, then the radius transformation (1.0f - radius for cosine and
inner-product) before the traversal of the underlying index. -/
def RangeSearch (normalizeVec : Vec → Vec) (s : VectorIndexFlat)
    (vector_with_ids : List (Int × Vec)) (radius : ℚ) : RangeSearchTrace :=
  if vector_with_ids.isEmpty then
    ⟨⟨Errno.eillegalParamteters, "vector_with_ids is empty"⟩, Option.none⟩
  else if ¬ checkVectorDimension vector_with_ids s.dimension then
    ⟨⟨Errno.eillegalParamteters, "dimension not match"⟩, Option.none⟩
  else
    let _vector_values := extractVectorValues normalizeVec s.normalize vector_with_ids
    let r := if s.metric_type = MetricType.cosine ∨ s.metric_type = MetricType.innerProduct
             then 1 - radius else radius
    ⟨Status.OK, Option.some r⟩

end VectorIndexFlat

/-! Document service layer (server/document_service.cc). -/

/-- Embedding of the gflags defaults declared in document_service.cc. -/
def FLAGS_document_max_batch_count : Int := 4096

/-- Embedding of the gflags default for the maximal request byte size. -/
def FLAGS_document_max_request_size : Int := 33554432

/-- Modelled from the spec: DocumentCodec::IsLegalDocumentId (document/codec
is not among the sources); a document id must satisfy id > 0 and
id < INT64_MAX. -/
def DocumentCodec.IsLegalDocumentId (id : Int) : Bool :=
  decide (0 < id ∧ id < 9223372036854775807)

/-- Outcomes of the validation steps whose implementations live outside the
embedded sources (ServiceHelper, Storage::ValidateLeader, the document index
wrapper state); the validators consult them in source order. -/
structure UpstreamChecks where
  regionFound : Bool
  validateRegionEpoch : Status
  validateLeader : Status
  indexReady : Bool
  indexBuildError : Bool
  validateClusterReadOnly : Status
  validateDocumentRegion : Status
  validateRegion : Status
  validateRange : Status
  validateRangeInRange : Status
  validateRegionState : Status
  deriving DecidableEq, Repr

/-- A fixed all-passing outcome for the upstream checks. -/
def UpstreamChecks.allOk : UpstreamChecks :=
  ⟨true, Status.OK, Status.OK, true, false, Status.OK, Status.OK, Status.OK,
   Status.OK, Status.OK, Status.OK⟩

/-- Embedding of the index-readiness gate used by every document validator:
if the wrapper is not ready, report build-error or not-ready. -/
def indexReadyStatus (ext : UpstreamChecks) : Status :=
  if ext.indexBuildError then ⟨Errno.edocumentIndexBuildError, "Document index build error"⟩
  else ⟨Errno.edocumentIndexNotReady, "Document index not ready"⟩

/-- A document carried by a DocumentAdd request; the validator only reads its
id; the payload is not read by the embedded code path. -/
structure Document where
  id : Int
  deriving DecidableEq, Repr

/-- Embedding of pb::document::DocumentAddRequest (the fields the validator
reads; byteSize stands for request->ByteSizeLong()). -/
structure DocumentAddRequest where
  region_id : Int
  documents : List Document
  byteSize : Int
  ttl : Int
  deriving DecidableEq, Repr

/-- Embedding of ValidateDocumentAddRequest, with every check in source
order. -/
def ValidateDocumentAddRequest (maxBatch maxSize : Int) (ext : UpstreamChecks)
    (req : DocumentAddRequest) : Status :=
  if ext.validateRegionEpoch.code ≠ Errno.ok then ext.validateRegionEpoch
  else if req.region_id = 0 then ⟨Errno.eillegalParamteters, "Param region_id is error"⟩
  else if req.documents.isEmpty then ⟨Errno.edocumentEmpty, "Document quantity is empty"⟩
  else if (req.documents.length : Int) > maxBatch then
    ⟨Errno.edocumentExceedMaxBatchCount, "Param documents size is exceed max batch count"⟩
  else if req.byteSize > maxSize then
    ⟨Errno.edocumentExceedMaxRequestSize, "Param documents size is exceed max batch size"⟩
  else if req.ttl < 0 then ⟨Errno.eillegalParamteters, "Param ttl is error"⟩
  else if ext.validateLeader.code ≠ Errno.ok then ext.validateLeader
  else if ¬ ext.indexReady then indexReadyStatus ext
  else if req.documents.any (fun d => !(DocumentCodec.IsLegalDocumentId d.id)) then
    ⟨Errno.eillegalParamteters, "Param document id is not allowed to be zero, INT64_MAX or negative"⟩
  else if ext.validateClusterReadOnly.code ≠ Errno.ok then ext.validateClusterReadOnly
  else ext.validateDocumentRegion

/-- Outcome of a Do* handler: the error left on the response and whether the
storage engine was invoked. -/
structure EngineOutcome where
  error : Status
  storageCalled : Bool
  deriving DecidableEq, Repr

/-- Embedding of DoDocumentAdd: validate, and only on success hand the batch
to storage->DocumentAdd (whose status is the parameter storageStatus). -/
def DoDocumentAdd (maxBatch maxSize : Int) (ext : UpstreamChecks)
    (req : DocumentAddRequest) (storageStatus : Status) : EngineOutcome :=
  let st := ValidateDocumentAddRequest maxBatch maxSize ext req
  if st.code ≠ Errno.ok then ⟨st, false⟩
  else ⟨storageStatus, true⟩

/-- Embedding of pb::document::DocumentDeleteRequest (validator-visible
fields). -/
structure DocumentDeleteRequest where
  region_id : Int
  ids : List Int
  deriving DecidableEq, Repr

/-- Embedding of ValidateDocumentDeleteRequest, checks in source order. -/
def ValidateDocumentDeleteRequest (maxBatch : Int) (ext : UpstreamChecks)
    (req : DocumentDeleteRequest) : Status :=
  if ext.validateRegionEpoch.code ≠ Errno.ok then ext.validateRegionEpoch
  else if req.region_id = 0 then ⟨Errno.eillegalParamteters, "Param region_id is error"⟩
  else if req.ids.isEmpty then ⟨Errno.edocumentEmpty, "Document id quantity is empty"⟩
  else if (req.ids.length : Int) > maxBatch then
    ⟨Errno.edocumentExceedMaxBatchCount, "Param ids size is exceed max batch count"⟩
  else if ext.validateLeader.code ≠ Errno.ok then ext.validateLeader
  else if ¬ ext.indexReady then indexReadyStatus ext
  else ext.validateDocumentRegion

/-- Embedding of DoDocumentDelete: validate, then storage->DocumentDelete. -/
def DoDocumentDelete (maxBatch : Int) (ext : UpstreamChecks)
    (req : DocumentDeleteRequest) (storageStatus : Status) : EngineOutcome :=
  let st := ValidateDocumentDeleteRequest maxBatch ext req
  if st.code ≠ Errno.ok then ⟨st, false⟩
  else ⟨storageStatus, true⟩

/-- Embedding of pb::document::DocumentBatchQueryRequest (validator-visible
fields). -/
structure DocumentBatchQueryRequest where
  region_id : Int
  document_ids : List Int
  ts : Int
  deriving DecidableEq, Repr

/-- Embedding of ValidateDocumentBatchQueryRequest, checks in source order. -/
def ValidateDocumentBatchQueryRequest (maxBatch : Int) (ext : UpstreamChecks)
    (req : DocumentBatchQueryRequest) : Status :=
  if ext.validateRegionEpoch.code ≠ Errno.ok then ext.validateRegionEpoch
  else if req.region_id = 0 then ⟨Errno.eillegalParamteters, "Param region_id is error"⟩
  else if req.document_ids.isEmpty then
    ⟨Errno.eillegalParamteters, "Param document_ids is error"⟩
  else if (req.document_ids.length : Int) > maxBatch then
    ⟨Errno.edocumentExceedMaxBatchCount, "Param document_ids size is exceed max batch count"⟩
  else if req.ts < 0 then ⟨Errno.eillegalParamteters, "Param ts is error"⟩
  else if ext.validateLeader.code ≠ Errno.ok then ext.validateLeader
  else ext.validateDocumentRegion

/-- Embedding of DoDocumentBatchQuery: validate, then
storage->DocumentBatchQuery. -/
def DoDocumentBatchQuery (maxBatch : Int) (ext : UpstreamChecks)
    (req : DocumentBatchQueryRequest) (storageStatus : Status) : EngineOutcome :=
  let st := ValidateDocumentBatchQueryRequest maxBatch ext req
  if st.code ≠ Errno.ok then ⟨st, false⟩
  else ⟨storageStatus, true⟩

/-- Embedding of pb::document::DocumentSearchRequest (validator-visible
fields; top_n is parameter().top_n()). -/
structure DocumentSearchRequest where
  region_id : Int
  top_n : Int
  deriving DecidableEq, Repr

/-- Embedding of ValidateDocumentSearchRequest, checks in source order
(region null, epoch, region id, the two top_n caps, negative top_n, leader,
index readiness, region state). -/
def ValidateDocumentSearchRequest (maxBatch : Int) (ext : UpstreamChecks)
    (req : DocumentSearchRequest) : Status :=
  if ¬ ext.regionFound then ⟨Errno.eregionNotFound, "Not found region"⟩
  else if ext.validateRegionEpoch.code ≠ Errno.ok then ext.validateRegionEpoch
  else if req.region_id = 0 then ⟨Errno.eillegalParamteters, "Param region_id is error"⟩
  else if req.top_n > maxBatch then
    ⟨Errno.edocumentExceedMaxBatchCount, "Param top_n is exceed max batch count"⟩
  else if req.top_n > maxBatch * 10 then
    ⟨Errno.edocumentExceedMaxBatchCount, "Param top_n is exceed max batch count * 10"⟩
  else if req.top_n < 0 then ⟨Errno.eillegalParamteters, "Param top_n is error"⟩
  else if ext.validateLeader.code ≠ Errno.ok then ext.validateLeader
  else if ¬ ext.indexReady then indexReadyStatus ext
  else ext.validateRegionState

/-- Outcome of DoDocumentSearch: the error left on the response, whether
storage->DocumentSearch ran, and the scores added to the response. -/
structure SearchOutcome where
  error : Status
  storageCalled : Bool
  results : List (Int × ℚ)
  deriving DecidableEq, Repr

/-- Embedding of DoDocumentSearch: validate, return immediately when
parameter().top_n() == 0, otherwise run the storage search (its result is
the parameter storageResult). -/
def DoDocumentSearch (maxBatch : Int) (ext : UpstreamChecks)
    (req : DocumentSearchRequest) (storageResult : Status × List (Int × ℚ)) : SearchOutcome :=
  let st := ValidateDocumentSearchRequest maxBatch ext req
  if st.code ≠ Errno.ok then ⟨st, false, []⟩
  else if req.top_n = 0 then ⟨Status.OK, false, []⟩
  else if storageResult.1.code ≠ Errno.ok then ⟨storageResult.1, true, []⟩
  else ⟨Status.OK, true, storageResult.2⟩

/-- Embedding of pb::document::DocumentSearchAllRequest (validator-visible
fields; stream_limit is stream_meta().limit()). -/
structure DocumentSearchAllRequest where
  region_id : Int
  stream_limit : Int
  deriving DecidableEq, Repr

/-- Embedding of ValidateDocumentSearchAllRequest, checks in source order:
region null, epoch, region id, the stream limit must be positive and must
not exceed FLAGS_stream_message_max_limit_size, leader, index readiness,
region state. -/
def ValidateDocumentSearchAllRequest (maxLimit : Int) (ext : UpstreamChecks)
    (req : DocumentSearchAllRequest) : Status :=
  if ¬ ext.regionFound then ⟨Errno.eregionNotFound, "Not found region"⟩
  else if ext.validateRegionEpoch.code ≠ Errno.ok then ext.validateRegionEpoch
  else if req.region_id = 0 then ⟨Errno.eillegalParamteters, "Param region_id is error"⟩
  else if req.stream_limit ≤ 0 then ⟨Errno.eillegalParamteters, "param limit is invalid"⟩
  else if req.stream_limit > maxLimit then
    ⟨Errno.eillegalParamteters, "param limit beyond max limit"⟩
  else if ext.validateLeader.code ≠ Errno.ok then ext.validateLeader
  else if ¬ ext.indexReady then indexReadyStatus ext
  else ext.validateRegionState

/-- Embedding of DoDocumentSearchAll: validate, and only on success run
storage->DocumentSearchAll. -/
def DoDocumentSearchAll (maxLimit : Int) (ext : UpstreamChecks)
    (req : DocumentSearchAllRequest) (storageStatus : Status) : EngineOutcome :=
  let st := ValidateDocumentSearchAllRequest maxLimit ext req
  if st.code ≠ Errno.ok then ⟨st, false⟩
  else ⟨storageStatus, true⟩

/-- Embedding of pb::store::TxnScanRequest (the fields the document TxnScan
validator reads; stream_limit is stream_meta().limit()). -/
structure TxnScanRequest where
  limit : Int
  stream_limit : Int
  start_ts : Int
  has_coprocessor : Bool
  deriving DecidableEq, Repr

/-- Embedding of ValidateTxnScanRequestIndex, checks in source order: a
positive limit is required, a limit above FLAGS_stream_message_max_limit_size
is rejected, then start_ts, epoch, region, ranges, region state and the
coprocessor rejection. -/
def ValidateTxnScanRequestIndex (maxLimit : Int) (ext : UpstreamChecks)
    (req : TxnScanRequest) : Status :=
  if req.limit ≤ 0 ∧ req.stream_limit ≤ 0 then
    ⟨Errno.eillegalParamteters, "param limit is invalid"⟩
  else if req.limit > maxLimit ∨ req.stream_limit > maxLimit then
    ⟨Errno.eillegalParamteters, "param limit beyond max limit"⟩
  else if req.start_ts < 0 then ⟨Errno.eillegalParamteters, "param start_ts is invalid"⟩
  else if ext.validateRegionEpoch.code ≠ Errno.ok then ext.validateRegionEpoch
  else if ¬ ext.regionFound then ⟨Errno.eregionNotFound, "Not found region"⟩
  else if ext.validateRange.code ≠ Errno.ok then ext.validateRange
  else if ext.validateRangeInRange.code ≠ Errno.ok then ext.validateRangeInRange
  else if ext.validateRegionState.code ≠ Errno.ok then ext.validateRegionState
  else if req.has_coprocessor then
    ⟨Errno.eillegalParamteters, "Not support scan document with coprocessor"⟩
  else Status.OK

/-- Embedding of DoTxnScanDocument: validate (a range-invalid failure returns
silently, any other failure is set on the response), and only on success run
the storage scan. -/
def DoTxnScanDocument (maxLimit : Int) (ext : UpstreamChecks)
    (req : TxnScanRequest) (storageStatus : Status) : EngineOutcome :=
  let st := ValidateTxnScanRequestIndex maxLimit ext req
  if st.code ≠ Errno.ok then
    if st.code = Errno.erangeInvalid then ⟨Status.OK, false⟩ else ⟨st, false⟩
  else ⟨storageStatus, true⟩

/-- Embedding of pb::store::Op (the mutation operations the prewrite
validator distinguishes). -/
inductive Op where
  | put
  | putIfAbsent
  | del
  | checkNotExists
  | lock
  | other
  deriving DecidableEq, Repr

/-- Embedding of one pb::store::Mutation of a document TxnPrewrite request.
The field key_document_id stands for DocumentCodec::UnPackageDocumentId
(mutation.key()): the document id encoded in the mutation key (the codec
itself is outside the sources, modelled from the key layout of the spec where the
id is the 8-byte big-endian suffix of the key).  document_id is
mutation.document().id(), and document_data_empty reflects
document.document().document_data().empty(). -/
structure Mutation where
  op : Op
  key_empty : Bool
  key_document_id : Int
  document_id : Int
  document_data_empty : Bool
  deriving DecidableEq, Repr

/-- Embedding of the per-mutation checks of the loop at the end of
ValidateDocumentTxnPrewriteRequest: the id decoded from the key must be
legal; Put/PutIfAbsent additionally require the id in the DocumentWithId to
match the key and a non-empty payload; Delete/CheckNotExists re-check the
key id; any other op is rejected. -/
def checkPrewriteMutation (m : Mutation) : Status :=
  if !(DocumentCodec.IsLegalDocumentId m.key_document_id) then
    ⟨Errno.eillegalParamteters,
     "Param document id is not allowed to be zero, INT64_MAX or negative (mutation key)"⟩
  else if m.op = Op.put ∨ m.op = Op.putIfAbsent then
    if !(DocumentCodec.IsLegalDocumentId m.key_document_id) then
      ⟨Errno.eillegalParamteters,
       "Param document id is not allowed to be zero, INT64_MAX or negative (DocumentWithId)"⟩
    else if m.document_id ≠ m.key_document_id then
      ⟨Errno.eillegalParamteters, "Param document id in DocumentWithId is not equal to document_id in mutation key"⟩
    else if m.document_data_empty then ⟨Errno.edocumentEmpty, "document is empty"⟩
    else Status.OK
  else if m.op = Op.del ∨ m.op = Op.checkNotExists then
    if !(DocumentCodec.IsLegalDocumentId m.key_document_id) then
      ⟨Errno.eillegalParamteters,
       "Param document id is not allowed to be zero, INT64_MAX or negative (mutation key)"⟩
    else Status.OK
  else ⟨Errno.eillegalParamteters, "Param op of mutation is error"⟩

/-- Embedding of the mutation loop: the status of the first failing mutation is
returned, otherwise OK. -/
def checkPrewriteMutations : List Mutation → Status
  | [] => Status.OK
  | m :: rest =>
      if (checkPrewriteMutation m).code ≠ Errno.ok then checkPrewriteMutation m
      else checkPrewriteMutations rest

/-- Embedding of pb::store::TxnPrewriteRequest (the fields the document
prewrite validator reads; byteSize stands for request->ByteSizeLong()). -/
structure TxnPrewriteRequest where
  mutations : List Mutation
  primary_lock_empty : Bool
  start_ts : Int
  lock_ttl : Int
  txn_size : Int
  byteSize : Int
  deriving DecidableEq, Repr

/-- Embedding of ValidateDocumentTxnPrewriteRequest, checks in source order:
epoch, non-empty mutations, FLAGS_max_prewrite_count, primary lock,
start_ts, lock_ttl, txn_size, empty mutation keys, region keys, the batch
count and request size caps, leader, cluster read-only, index readiness,
then the per-mutation loop and finally the document-region check. -/
def ValidateDocumentTxnPrewriteRequest (maxPrewrite maxBatch maxSize : Int)
    (ext : UpstreamChecks) (req : TxnPrewriteRequest) : Status :=
  if ext.validateRegionEpoch.code ≠ Errno.ok then ext.validateRegionEpoch
  else if req.mutations.length = 0 then ⟨Errno.eillegalParamteters, "mutations is empty"⟩
  else if (req.mutations.length : Int) > maxPrewrite then
    ⟨Errno.eillegalParamteters, "mutations size is too large, max=1024"⟩
  else if req.primary_lock_empty then ⟨Errno.eillegalParamteters, "primary_lock is empty"⟩
  else if req.start_ts = 0 then ⟨Errno.eillegalParamteters, "start_ts is 0"⟩
  else if req.lock_ttl = 0 then ⟨Errno.eillegalParamteters, "lock_ttl is 0"⟩
  else if req.txn_size = 0 then ⟨Errno.eillegalParamteters, "txn_size is 0"⟩
  else if req.mutations.any (fun m => m.key_empty) then ⟨Errno.ekeyEmpty, "key is empty"⟩
  else if ext.validateRegion.code ≠ Errno.ok then ext.validateRegion
  else if (req.mutations.length : Int) > maxBatch then
    ⟨Errno.edocumentExceedMaxBatchCount, "Param documents size is exceed max batch count"⟩
  else if req.byteSize > maxSize then
    ⟨Errno.edocumentExceedMaxRequestSize, "Param documents size is exceed max batch size"⟩
  else if ext.validateLeader.code ≠ Errno.ok then ext.validateLeader
  else if ext.validateClusterReadOnly.code ≠ Errno.ok then ext.validateClusterReadOnly
  else if ¬ ext.indexReady then indexReadyStatus ext
  else if (checkPrewriteMutations req.mutations).code ≠ Errno.ok then
    checkPrewriteMutations req.mutations
  else ext.validateDocumentRegion

/-! Dispatchers: the DocumentServiceImpl RPC entry points.  Each one builds a
ServiceClosure, bails out when the region is unknown, optionally applies the
background-task backpressure gate, and enqueues the Do* closure on a worker
set; when the enqueue fails the closure guard fires the done callback and a
RequestFull error is set on the response. -/

/-- Result of one RPC dispatch: the error set on the response, whether the
task was enqueued on a worker pool, and whether the done callback already
fired on the dispatch path itself (on enqueue success it fires later, inside
the task). -/
structure DispatchResult where
  error : Status
  enqueued : Bool
  doneFired : Bool
  deriving DecidableEq, Repr

namespace DocumentServiceImpl

/-- Embedding of DocumentServiceImpl::IsBackgroundPendingTaskCountExceed:
pending background tasks strictly above
FLAGS_document_max_background_task_count. -/
def IsBackgroundPendingTaskCountExceed (pending maxBackground : Int) : Bool :=
  pending > maxBackground

/-- Embedding of the DocumentServiceImpl::DocumentAdd entry point: region
gate, background backpressure gate, then ExecuteRR on the write worker
set. -/
def DocumentAdd (regionFound : Bool) (pending maxBackground : Int)
    (enqueueOk : Bool) : DispatchResult :=
  if ¬ regionFound then ⟨Status.OK, false, true⟩
  else if IsBackgroundPendingTaskCountExceed pending maxBackground then
    ⟨⟨Errno.erequestFull, "Background pending task count is full, please wait and retry"⟩,
     false, true⟩
  else if enqueueOk then ⟨Status.OK, true, false⟩
  else ⟨⟨Errno.erequestFull, "WorkerSet queue is full, please wait and retry"⟩, false, true⟩

/-- Embedding of the DocumentServiceImpl::TxnPrewrite entry point: same
shape as DocumentAdd (region gate, backpressure gate, ExecuteRR on the
write worker set). -/
def TxnPrewrite (regionFound : Bool) (pending maxBackground : Int)
    (enqueueOk : Bool) : DispatchResult :=
  if ¬ regionFound then ⟨Status.OK, false, true⟩
  else if IsBackgroundPendingTaskCountExceed pending maxBackground then
    ⟨⟨Errno.erequestFull, "Background pending task count is full, please wait and retry"⟩,
     false, true⟩
  else if enqueueOk then ⟨Status.OK, true, false⟩
  else ⟨⟨Errno.erequestFull, "WorkerSet queue is full, please wait and retry"⟩, false, true⟩

/-- Embedding of the DocumentServiceImpl::TxnCommit entry point: same shape
as DocumentAdd (region gate, backpressure gate, ExecuteRR on the write
worker set). -/
def TxnCommit (regionFound : Bool) (pending maxBackground : Int)
    (enqueueOk : Bool) : DispatchResult :=
  if ¬ regionFound then ⟨Status.OK, false, true⟩
  else if IsBackgroundPendingTaskCountExceed pending maxBackground then
    ⟨⟨Errno.erequestFull, "Background pending task count is full, please wait and retry"⟩,
     false, true⟩
  else if enqueueOk then ⟨Status.OK, true, false⟩
  else ⟨⟨Errno.erequestFull, "WorkerSet queue is full, please wait and retry"⟩, false, true⟩

/-- Embedding of the DocumentServiceImpl::DocumentSearch entry point: region
gate, the enable_async_document_search flag (inline execution when off),
then ExecuteLeastQueue on the read worker set. -/
def DocumentSearch (regionFound asyncEnabled : Bool) (inlineResult : Status)
    (enqueueOk : Bool) : DispatchResult :=
  if ¬ regionFound then ⟨Status.OK, false, true⟩
  else if ¬ asyncEnabled then ⟨inlineResult, false, true⟩
  else if enqueueOk then ⟨Status.OK, true, false⟩
  else ⟨⟨Errno.erequestFull, "WorkerSet queue is full, please wait and retry"⟩, false, true⟩

end DocumentServiceImpl

/-! Region timestamp watermark (store::Region in the region meta header). -/

namespace Region

/-- Embedding of store::Region::SetRawAppliedMaxTs: store ts only when it is
strictly above the current value. -/
def SetRawAppliedMaxTs (ts cur : Int) : Int :=
  if ts > cur then ts else cur

/-- RawAppliedMaxTs after a sequence of SetRawAppliedMaxTs calls, starting
from the initial value of the atomic. -/
def applyRawAppliedMaxTs (init : Int) (calls : List Int) : Int :=
  calls.foldl (fun cur ts => SetRawAppliedMaxTs ts cur) init

end Region

/-! Theorems. -/

/-- Helper: one SetRawAppliedMaxTs call computes the maximum of the current
value and the argument. -/
lemma Region.setRawAppliedMaxTs_eq_max (ts cur : Int) :
    Region.SetRawAppliedMaxTs ts cur = max cur ts := by
  unfold Region.SetRawAppliedMaxTs
  split <;> omega

/-- Helper: applyRawAppliedMaxTs over an appended call list composes. -/
lemma Region.applyRawAppliedMaxTs_append (init : Int) (l1 l2 : List Int) :
    Region.applyRawAppliedMaxTs init (l1 ++ l2)
      = Region.applyRawAppliedMaxTs (Region.applyRawAppliedMaxTs init l1) l2 := by
  unfold Region.applyRawAppliedMaxTs
  exact List.foldl_append _ _ _ _

/-- Helper: the initial value never exceeds the final watermark. -/
lemma Region.le_applyRawAppliedMaxTs (init : Int) (calls : List Int) :
    init ≤ Region.applyRawAppliedMaxTs init calls := by
  induction calls generalizing init with
  | nil => simp [Region.applyRawAppliedMaxTs]
  | cons a l ih =>
      have h1 : init ≤ Region.SetRawAppliedMaxTs a init := by
        rw [Region.setRawAppliedMaxTs_eq_max]; exact le_max_left _ _
      have h2 := ih (Region.SetRawAppliedMaxTs a init)
      unfold Region.applyRawAppliedMaxTs at h2 ⊢
      simpa using le_trans h1 h2

/-- Helper: every argument of the call sequence is below the final
watermark. -/
lemma Region.arg_le_applyRawAppliedMaxTs (init : Int) (calls : List Int) :
    ∀ x ∈ calls, x ≤ Region.applyRawAppliedMaxTs init calls := by
  induction calls generalizing init with
  | nil => intro x hx; cases hx
  | cons a l ih =>
      intro x hx
      rcases List.mem_cons.mp hx with h | h
      · subst h
        have h1 : x ≤ Region.SetRawAppliedMaxTs x init := by
          rw [Region.setRawAppliedMaxTs_eq_max]; exact le_max_right _ _
        have h2 := Region.le_applyRawAppliedMaxTs (Region.SetRawAppliedMaxTs x init) l
        unfold Region.applyRawAppliedMaxTs at h2 ⊢
        simpa using le_trans h1 h2
      · have h2 := ih (Region.SetRawAppliedMaxTs a init) x h
        unfold Region.applyRawAppliedMaxTs at h2 ⊢
        simpa using h2

/-- Helper: the final watermark is either the initial value or one of the
arguments. -/
lemma Region.applyRawAppliedMaxTs_mem (init : Int) (calls : List Int) :
    Region.applyRawAppliedMaxTs init calls ∈ init :: calls := by
  induction calls generalizing init with
  | nil => simp [Region.applyRawAppliedMaxTs]
  | cons a l ih =>
      have h := ih (Region.SetRawAppliedMaxTs a init)
      have hstep : Region.applyRawAppliedMaxTs init (a :: l)
          = Region.applyRawAppliedMaxTs (Region.SetRawAppliedMaxTs a init) l := by
        unfold Region.applyRawAppliedMaxTs; rfl
      rw [hstep]
      rcases List.mem_cons.mp h with h1 | h1
      · rw [h1]
        unfold Region.SetRawAppliedMaxTs
        split
        · exact List.mem_cons_of_mem _ (List.mem_cons_self _ _)
        · exact List.mem_cons_self _ _
      · exact List.mem_cons_of_mem _ (List.mem_cons_of_mem _ h1)

/-- C8: the raw_applied_max_ts watermark of a region is monotone non-decreasing: after any
sequence of SetRawAppliedMaxTs calls the watermark equals the maximum of the
initial value and all arguments passed (it is one of them and bounds them
all), and no prefix of the call sequence ever yields a larger value than the
full sequence (no call lowers it). -/
theorem Region.rawAppliedMaxTs_monotone (init : Int) (calls : List Int) :
    Region.applyRawAppliedMaxTs init calls ∈ init :: calls
    ∧ (∀ x ∈ init :: calls, x ≤ Region.applyRawAppliedMaxTs init calls)
    ∧ (∀ l1 l2, calls = l1 ++ l2 →
        Region.applyRawAppliedMaxTs init l1 ≤ Region.applyRawAppliedMaxTs init calls) := by
  refine ⟨Region.applyRawAppliedMaxTs_mem init calls, ?_, ?_⟩
  · intro x hx
    rcases List.mem_cons.mp hx with h | h
    · subst h; exact Region.le_applyRawAppliedMaxTs x calls
    · exact Region.arg_le_applyRawAppliedMaxTs init calls x h
  · intro l1 l2 h
    subst h
    rw [Region.applyRawAppliedMaxTs_append]
    exact Region.le_applyRawAppliedMaxTs _ _

/-- C8 witness: concrete instantiation with initial watermark 5 and calls
3, 10, 7: the argument 3 never exceeds the final value and the prefix value
after the first call is not above the final value. -/
theorem Region.rawAppliedMaxTs_monotone_witness :
    (3 : Int) ≤ Region.applyRawAppliedMaxTs 5 [3, 10, 7]
    ∧ Region.applyRawAppliedMaxTs 5 [3]
        ≤ Region.applyRawAppliedMaxTs 5 [3, 10, 7] := by
  refine ⟨?_, ?_⟩
  · exact (Region.rawAppliedMaxTs_monotone 5 [3, 10, 7]).2.1 3 (by simp)
  · exact (Region.rawAppliedMaxTs_monotone 5 [3, 10, 7]).2.2 [3] [10, 7] rfl

/-- Helper: a non-nil list is not isEmpty. -/
lemma isEmpty_false_of_ne_nil {α : Type} {l : List α} (h : l ≠ []) :
    l.isEmpty = false := by
  cases l with
  | nil => exact absurd rfl h
  | cons a t => rfl

/-- C1: for every RangeSearch call on a flat vector index whose metric type
is inner-product or cosine, the radius handed to the underlying index
traversal is 1 - r where r is the radius given by the caller; for metric type L2 the
radius is passed through unchanged. -/
theorem VectorIndexFlat.rangeSearch_radius_transform (normalizeVec : Vec → Vec)
    (s : VectorIndexFlat) (batch : List (Int × Vec)) (radius : ℚ)
    (hne : batch ≠ [])
    (hdim : checkVectorDimension batch s.dimension = true) :
    ((s.metric_type = MetricType.innerProduct ∨ s.metric_type = MetricType.cosine) →
      (VectorIndexFlat.RangeSearch normalizeVec s batch radius).radiusPassed
        = Option.some (1 - radius))
    ∧ (s.metric_type = MetricType.l2 →
      (VectorIndexFlat.RangeSearch normalizeVec s batch radius).radiusPassed
        = Option.some radius) := by
  have h1 : batch.isEmpty = false := isEmpty_false_of_ne_nil hne
  constructor
  · intro hm
    rcases hm with h | h <;>
      simp [VectorIndexFlat.RangeSearch, h1, hdim, h]
  · intro hm
    simp [VectorIndexFlat.RangeSearch, h1, hdim, hm]

/-- C1 witness: on a cosine flat index of dimension 1, a range search with
radius 1/2 hands radius 1 - 1/2 to the traversal. -/
theorem VectorIndexFlat.rangeSearch_radius_transform_witness :
    (VectorIndexFlat.RangeSearch id (VectorIndexFlat.new MetricType.cosine 1)
        [(42, ([(1 : ℚ)] : Vec))] (1/2)).radiusPassed = Option.some (1 - 1/2) :=
  (VectorIndexFlat.rangeSearch_radius_transform id
      (VectorIndexFlat.new MetricType.cosine 1) [(42, ([(1 : ℚ)] : Vec))] (1/2)
      (by simp) (by rfl)).1 (Or.inr rfl)

/-- C10: a Search call on the flat index with a non-empty batch and topk
zero returns OK with no results and never touches the underlying index;
likewise a DocumentSearch request with top_n zero that passes validation
succeeds with an empty result set and no storage search. -/
theorem VectorIndexFlat.search_topk_zero (normalizeVec : Vec → Vec)
    (rawSearch : List (Int × Vec) → List Vec → Nat → List (Int × ℚ))
    (s : VectorIndexFlat) (batch : List (Int × Vec))
    (maxBatch : Int) (ext : UpstreamChecks) (req : DocumentSearchRequest)
    (storageResult : Status × List (Int × ℚ))
    (hne : batch ≠ [])
    (hok : (ValidateDocumentSearchRequest maxBatch ext req).code = Errno.ok)
    (htopn : req.top_n = 0) :
    VectorIndexFlat.Search normalizeVec rawSearch s batch 0
      = ⟨Status.OK, [], Option.none⟩
    ∧ DoDocumentSearch maxBatch ext req storageResult
      = ⟨Status.OK, false, []⟩ := by
  have h1 : batch.isEmpty = false := isEmpty_false_of_ne_nil hne
  constructor
  · simp [VectorIndexFlat.Search, h1]
  · simp [DoDocumentSearch, hok, htopn]

/-- C10 witness: concrete flat search with one query and topk zero, and a
concrete DocumentSearch request with top_n zero and all upstream checks
passing. -/
theorem VectorIndexFlat.search_topk_zero_witness :
    VectorIndexFlat.Search id (fun _ _ _ => [])
        (VectorIndexFlat.new MetricType.l2 1) [(1, ([(0 : ℚ)] : Vec))] 0
      = ⟨Status.OK, [], Option.none⟩
    ∧ DoDocumentSearch 4096 UpstreamChecks.allOk ⟨1, 0⟩ (Status.OK, [])
      = ⟨Status.OK, false, []⟩ :=
  VectorIndexFlat.search_topk_zero id (fun _ _ _ => [])
    (VectorIndexFlat.new MetricType.l2 1) [(1, ([(0 : ℚ)] : Vec))]
    4096 UpstreamChecks.allOk ⟨1, 0⟩ (Status.OK, []) (by simp) (by rfl) rfl

/-- Helper: the backpressure gate is closed when the pending count does not
exceed the threshold. -/
lemma isBackgroundPendingTaskCountExceed_false {pending maxBackground : Int}
    (h : ¬ pending > maxBackground) :
    DocumentServiceImpl.IsBackgroundPendingTaskCountExceed pending maxBackground = false := by
  simp [DocumentServiceImpl.IsBackgroundPendingTaskCountExceed, h]

/-- Helper: the backpressure gate is open when the pending count exceeds the
threshold. -/
lemma isBackgroundPendingTaskCountExceed_true {pending maxBackground : Int}
    (h : pending > maxBackground) :
    DocumentServiceImpl.IsBackgroundPendingTaskCountExceed pending maxBackground = true := by
  simp [DocumentServiceImpl.IsBackgroundPendingTaskCountExceed, h]

/-- C6: for every embedded document-service RPC entry point whose worker-pool
enqueue fails, the response error is EREQUEST_FULL and the done callback
still fires immediately (no task was enqueued), for DocumentAdd,
TxnPrewrite, TxnCommit and DocumentSearch alike. -/
theorem DocumentServiceImpl.enqueue_failure_request_full
    (pending maxBackground : Int) (inlineResult : Status)
    (hbp : ¬ pending > maxBackground) :
    DocumentServiceImpl.DocumentAdd true pending maxBackground false
      = ⟨⟨Errno.erequestFull, "WorkerSet queue is full, please wait and retry"⟩, false, true⟩
    ∧ DocumentServiceImpl.TxnPrewrite true pending maxBackground false
      = ⟨⟨Errno.erequestFull, "WorkerSet queue is full, please wait and retry"⟩, false, true⟩
    ∧ DocumentServiceImpl.TxnCommit true pending maxBackground false
      = ⟨⟨Errno.erequestFull, "WorkerSet queue is full, please wait and retry"⟩, false, true⟩
    ∧ DocumentServiceImpl.DocumentSearch true true inlineResult false
      = ⟨⟨Errno.erequestFull, "WorkerSet queue is full, please wait and retry"⟩, false, true⟩ := by
  have h := isBackgroundPendingTaskCountExceed_false hbp
  refine ⟨?_, ?_, ?_, ?_⟩ <;>
    simp [DocumentServiceImpl.DocumentAdd, DocumentServiceImpl.TxnPrewrite,
      DocumentServiceImpl.TxnCommit, DocumentServiceImpl.DocumentSearch, h]

/-- C6 witness: concrete dispatch with a known region, an idle background
queue and a failing enqueue. -/
theorem DocumentServiceImpl.enqueue_failure_request_full_witness :
    DocumentServiceImpl.DocumentAdd true 0 10 false
      = ⟨⟨Errno.erequestFull, "WorkerSet queue is full, please wait and retry"⟩, false, true⟩
    ∧ DocumentServiceImpl.TxnPrewrite true 0 10 false
      = ⟨⟨Errno.erequestFull, "WorkerSet queue is full, please wait and retry"⟩, false, true⟩
    ∧ DocumentServiceImpl.TxnCommit true 0 10 false
      = ⟨⟨Errno.erequestFull, "WorkerSet queue is full, please wait and retry"⟩, false, true⟩
    ∧ DocumentServiceImpl.DocumentSearch true true Status.OK false
      = ⟨⟨Errno.erequestFull, "WorkerSet queue is full, please wait and retry"⟩, false, true⟩ :=
  DocumentServiceImpl.enqueue_failure_request_full 0 10 Status.OK (by omega)

/-- C7: when the pending background task count exceeds
document_max_background_task_count, the DocumentAdd, TxnPrewrite and
TxnCommit entry points reject the request with EREQUEST_FULL before
enqueueing anything (the done callback fires on the dispatch path),
regardless of whether the worker queue could have accepted the task. -/
theorem DocumentServiceImpl.background_backpressure
    (pending maxBackground : Int) (enqueueOk : Bool)
    (hbp : pending > maxBackground) :
    DocumentServiceImpl.DocumentAdd true pending maxBackground enqueueOk
      = ⟨⟨Errno.erequestFull, "Background pending task count is full, please wait and retry"⟩,
         false, true⟩
    ∧ DocumentServiceImpl.TxnPrewrite true pending maxBackground enqueueOk
      = ⟨⟨Errno.erequestFull, "Background pending task count is full, please wait and retry"⟩,
         false, true⟩
    ∧ DocumentServiceImpl.TxnCommit true pending maxBackground enqueueOk
      = ⟨⟨Errno.erequestFull, "Background pending task count is full, please wait and retry"⟩,
         false, true⟩ := by
  have h := isBackgroundPendingTaskCountExceed_true hbp
  refine ⟨?_, ?_, ?_⟩ <;>
    simp [DocumentServiceImpl.DocumentAdd, DocumentServiceImpl.TxnPrewrite,
      DocumentServiceImpl.TxnCommit, h]

/-- C7 witness: concrete dispatch with 11 pending background tasks over a
threshold of 10. -/
theorem DocumentServiceImpl.background_backpressure_witness :
    DocumentServiceImpl.DocumentAdd true 11 10 true
      = ⟨⟨Errno.erequestFull, "Background pending task count is full, please wait and retry"⟩,
         false, true⟩
    ∧ DocumentServiceImpl.TxnPrewrite true 11 10 true
      = ⟨⟨Errno.erequestFull, "Background pending task count is full, please wait and retry"⟩,
         false, true⟩
    ∧ DocumentServiceImpl.TxnCommit true 11 10 true
      = ⟨⟨Errno.erequestFull, "Background pending task count is full, please wait and retry"⟩,
         false, true⟩ :=
  DocumentServiceImpl.background_backpressure 11 10 true (by omega)

/-- C5: a DocumentAdd, DocumentDelete or DocumentBatchQuery request whose
batch (documents, ids or document_ids) has more than
document_max_batch_count entries (default 4096) is rejected with the
batch-exceeded error before any engine work is done (the storage engine is
never invoked). -/
theorem document_batch_count_cap (ext : UpstreamChecks)
    (reqA : DocumentAddRequest) (reqD : DocumentDeleteRequest)
    (reqQ : DocumentBatchQueryRequest) (stgA stgD stgQ : Status)
    (hep : ext.validateRegionEpoch.code = Errno.ok)
    (hrA : reqA.region_id ≠ 0) (hrD : reqD.region_id ≠ 0) (hrQ : reqQ.region_id ≠ 0)
    (hlA : (reqA.documents.length : Int) > FLAGS_document_max_batch_count)
    (hlD : (reqD.ids.length : Int) > FLAGS_document_max_batch_count)
    (hlQ : (reqQ.document_ids.length : Int) > FLAGS_document_max_batch_count) :
    (ValidateDocumentAddRequest FLAGS_document_max_batch_count
        FLAGS_document_max_request_size ext reqA).code = Errno.edocumentExceedMaxBatchCount
    ∧ (DoDocumentAdd FLAGS_document_max_batch_count FLAGS_document_max_request_size
        ext reqA stgA).storageCalled = false
    ∧ (ValidateDocumentDeleteRequest FLAGS_document_max_batch_count ext reqD).code
        = Errno.edocumentExceedMaxBatchCount
    ∧ (DoDocumentDelete FLAGS_document_max_batch_count ext reqD stgD).storageCalled = false
    ∧ (ValidateDocumentBatchQueryRequest FLAGS_document_max_batch_count ext reqQ).code
        = Errno.edocumentExceedMaxBatchCount
    ∧ (DoDocumentBatchQuery FLAGS_document_max_batch_count ext reqQ stgQ).storageCalled
        = false := by
  have hneA : reqA.documents.isEmpty = false := by
    apply isEmpty_false_of_ne_nil
    intro h
    rw [h] at hlA
    norm_num [FLAGS_document_max_batch_count] at hlA
  have hneD : reqD.ids.isEmpty = false := by
    apply isEmpty_false_of_ne_nil
    intro h
    rw [h] at hlD
    norm_num [FLAGS_document_max_batch_count] at hlD
  have hneQ : reqQ.document_ids.isEmpty = false := by
    apply isEmpty_false_of_ne_nil
    intro h
    rw [h] at hlQ
    norm_num [FLAGS_document_max_batch_count] at hlQ
  have hA : (ValidateDocumentAddRequest FLAGS_document_max_batch_count
      FLAGS_document_max_request_size ext reqA).code = Errno.edocumentExceedMaxBatchCount := by
    simp [ValidateDocumentAddRequest, hep, hrA, hneA, hlA]
  have hD : (ValidateDocumentDeleteRequest FLAGS_document_max_batch_count ext reqD).code
      = Errno.edocumentExceedMaxBatchCount := by
    simp [ValidateDocumentDeleteRequest, hep, hrD, hneD, hlD]
  have hQ : (ValidateDocumentBatchQueryRequest FLAGS_document_max_batch_count ext reqQ).code
      = Errno.edocumentExceedMaxBatchCount := by
    simp [ValidateDocumentBatchQueryRequest, hep, hrQ, hneQ, hlQ]
  refine ⟨hA, ?_, hD, ?_, hQ, ?_⟩
  · simp [DoDocumentAdd, hA]
  · simp [DoDocumentDelete, hD]
  · simp [DoDocumentBatchQuery, hQ]

/-- C5 witness: concrete requests of 4097 entries each against the default
cap of 4096, with all upstream checks passing. -/
theorem document_batch_count_cap_witness :
    (ValidateDocumentAddRequest FLAGS_document_max_batch_count
        FLAGS_document_max_request_size UpstreamChecks.allOk
        ⟨1, List.replicate 4097 ⟨1⟩, 0, 0⟩).code = Errno.edocumentExceedMaxBatchCount
    ∧ (DoDocumentAdd FLAGS_document_max_batch_count FLAGS_document_max_request_size
        UpstreamChecks.allOk ⟨1, List.replicate 4097 ⟨1⟩, 0, 0⟩ Status.OK).storageCalled
        = false
    ∧ (ValidateDocumentDeleteRequest FLAGS_document_max_batch_count UpstreamChecks.allOk
        ⟨1, List.replicate 4097 1⟩).code = Errno.edocumentExceedMaxBatchCount
    ∧ (DoDocumentDelete FLAGS_document_max_batch_count UpstreamChecks.allOk
        ⟨1, List.replicate 4097 1⟩ Status.OK).storageCalled = false
    ∧ (ValidateDocumentBatchQueryRequest FLAGS_document_max_batch_count UpstreamChecks.allOk
        ⟨1, List.replicate 4097 1, 0⟩).code = Errno.edocumentExceedMaxBatchCount
    ∧ (DoDocumentBatchQuery FLAGS_document_max_batch_count UpstreamChecks.allOk
        ⟨1, List.replicate 4097 1, 0⟩ Status.OK).storageCalled = false :=
  document_batch_count_cap UpstreamChecks.allOk
    ⟨1, List.replicate 4097 ⟨1⟩, 0, 0⟩ ⟨1, List.replicate 4097 1⟩
    ⟨1, List.replicate 4097 1, 0⟩ Status.OK Status.OK Status.OK
    rfl (by norm_num) (by norm_num) (by norm_num)
    (by rw [List.length_replicate]; norm_num [FLAGS_document_max_batch_count])
    (by rw [List.length_replicate]; norm_num [FLAGS_document_max_batch_count])
    (by rw [List.length_replicate]; norm_num [FLAGS_document_max_batch_count])

/-- Helper: an id that is zero, negative or INT64_MAX is not a legal
document id. -/
lemma isLegalDocumentId_false {id : Int}
    (h : id = 0 ∨ id < 0 ∨ id = 9223372036854775807) :
    DocumentCodec.IsLegalDocumentId id = false := by
  simp only [DocumentCodec.IsLegalDocumentId, decide_eq_false_iff_not, not_and, not_lt]
  omega

/-- Helper: a mutation that passes checkPrewriteMutation has a legal
document id encoded in its key. -/
lemma checkPrewriteMutations_head_legal {m : Mutation}
    (h : (checkPrewriteMutation m).code = Errno.ok) :
    DocumentCodec.IsLegalDocumentId m.key_document_id = true := by
  by_contra hc
  have hfalse : DocumentCodec.IsLegalDocumentId m.key_document_id = false := by
    cases hval : DocumentCodec.IsLegalDocumentId m.key_document_id
    · rfl
    · exact absurd hval hc
  unfold checkPrewriteMutation at h
  rw [hfalse] at h
  simp at h

/-- Helper: if the prewrite mutation loop returns OK, the key of every mutation
encodes a legal document id. -/
lemma checkPrewriteMutations_ok_legal (l : List Mutation)
    (h : (checkPrewriteMutations l).code = Errno.ok) :
    ∀ m ∈ l, DocumentCodec.IsLegalDocumentId m.key_document_id = true := by
  induction l with
  | nil => intro m hm; cases hm
  | cons a t ih =>
      intro m hm
      unfold checkPrewriteMutations at h
      by_cases hc : (checkPrewriteMutation a).code = Errno.ok
      · rw [if_neg (not_not_intro hc)] at h
        rcases List.mem_cons.mp hm with h1 | h1
        · subst h1; exact checkPrewriteMutations_head_legal hc
        · exact ih h m h1
      · rw [if_pos hc] at h
        exact absurd h hc

/-- Helper: if the whole prewrite validator returns OK, the mutation loop
returned OK. -/
lemma validateDocumentTxnPrewrite_ok_loop {maxPrewrite maxBatch maxSize : Int}
    {ext : UpstreamChecks} {req : TxnPrewriteRequest}
    (h : (ValidateDocumentTxnPrewriteRequest maxPrewrite maxBatch maxSize ext req).code
        = Errno.ok) :
    (checkPrewriteMutations req.mutations).code = Errno.ok := by
  unfold ValidateDocumentTxnPrewriteRequest at h
  by_cases h1 : ext.validateRegionEpoch.code ≠ Errno.ok
  · rw [if_pos h1] at h; exact absurd h h1
  rw [if_neg h1] at h
  by_cases h2 : req.mutations.length = 0
  · rw [if_pos h2] at h; exact Errno.noConfusion h
  rw [if_neg h2] at h
  by_cases h3 : (req.mutations.length : Int) > maxPrewrite
  · rw [if_pos h3] at h; exact Errno.noConfusion h
  rw [if_neg h3] at h
  by_cases h4 : req.primary_lock_empty = true
  · rw [if_pos h4] at h; exact Errno.noConfusion h
  rw [if_neg h4] at h
  by_cases h5 : req.start_ts = 0
  · rw [if_pos h5] at h; exact Errno.noConfusion h
  rw [if_neg h5] at h
  by_cases h6 : req.lock_ttl = 0
  · rw [if_pos h6] at h; exact Errno.noConfusion h
  rw [if_neg h6] at h
  by_cases h7 : req.txn_size = 0
  · rw [if_pos h7] at h; exact Errno.noConfusion h
  rw [if_neg h7] at h
  by_cases h8 : (req.mutations.any fun m => m.key_empty) = true
  · rw [if_pos h8] at h; exact Errno.noConfusion h
  rw [if_neg h8] at h
  by_cases h9 : ext.validateRegion.code ≠ Errno.ok
  · rw [if_pos h9] at h; exact absurd h h9
  rw [if_neg h9] at h
  by_cases h10 : (req.mutations.length : Int) > maxBatch
  · rw [if_pos h10] at h; exact Errno.noConfusion h
  rw [if_neg h10] at h
  by_cases h11 : req.byteSize > maxSize
  · rw [if_pos h11] at h; exact Errno.noConfusion h
  rw [if_neg h11] at h
  by_cases h12 : ext.validateLeader.code ≠ Errno.ok
  · rw [if_pos h12] at h; exact absurd h h12
  rw [if_neg h12] at h
  by_cases h13 : ext.validateClusterReadOnly.code ≠ Errno.ok
  · rw [if_pos h13] at h; exact absurd h h13
  rw [if_neg h13] at h
  by_cases h14 : ¬ ext.indexReady = true
  · rw [if_pos h14] at h
    unfold indexReadyStatus at h
    split_ifs at h
  rw [if_neg h14] at h
  by_cases h15 : (checkPrewriteMutations req.mutations).code ≠ Errno.ok
  · rw [if_pos h15] at h; exact absurd h h15
  exact not_not.mp h15

/-- C3: a DocumentAdd request containing a document whose id is zero,
negative or INT64_MAX is rejected by validation with an illegal-parameter
error and nothing is stored (the storage engine is never invoked); and the
same id-legality check is applied to the document id encoded in every
mutation key of a document TxnPrewrite request: whenever the prewrite
validator accepts, the id encoded in every mutation key is legal. -/
theorem document_id_validation (maxPrewrite maxBatch maxSize : Int)
    (ext extP : UpstreamChecks) (reqA : DocumentAddRequest)
    (reqP : TxnPrewriteRequest) (stg : Status)
    (hep : ext.validateRegionEpoch.code = Errno.ok)
    (hrid : reqA.region_id ≠ 0)
    (hlen : ¬ (reqA.documents.length : Int) > maxBatch)
    (hsize : ¬ reqA.byteSize > maxSize)
    (httl : ¬ reqA.ttl < 0)
    (hldr : ext.validateLeader.code = Errno.ok)
    (hready : ext.indexReady = true)
    (hbad : ∃ d ∈ reqA.documents, d.id = 0 ∨ d.id < 0 ∨ d.id = 9223372036854775807)
    (hPok : (ValidateDocumentTxnPrewriteRequest maxPrewrite maxBatch maxSize extP reqP).code
        = Errno.ok) :
    ValidateDocumentAddRequest maxBatch maxSize ext reqA
      = ⟨Errno.eillegalParamteters,
         "Param document id is not allowed to be zero, INT64_MAX or negative"⟩
    ∧ (DoDocumentAdd maxBatch maxSize ext reqA stg).storageCalled = false
    ∧ ∀ m ∈ reqP.mutations,
        DocumentCodec.IsLegalDocumentId m.key_document_id = true := by
  have hne : reqA.documents.isEmpty = false := by
    apply isEmpty_false_of_ne_nil
    rcases hbad with ⟨d, hd, _⟩
    intro h
    rw [h] at hd
    cases hd
  have hbadany : reqA.documents.any (fun d => !(DocumentCodec.IsLegalDocumentId d.id))
      = true := by
    rcases hbad with ⟨d, hd, hid⟩
    refine List.any_eq_true.mpr ⟨d, hd, ?_⟩
    simp [isLegalDocumentId_false hid]
  have hval : ValidateDocumentAddRequest maxBatch maxSize ext reqA
      = ⟨Errno.eillegalParamteters,
         "Param document id is not allowed to be zero, INT64_MAX or negative"⟩ := by
    simp [ValidateDocumentAddRequest, hep, hrid, hne, hlen, hsize, httl, hldr,
      hready, hbadany]
  refine ⟨hval, ?_, ?_⟩
  · simp [DoDocumentAdd, hval]
  · exact checkPrewriteMutations_ok_legal reqP.mutations
      (validateDocumentTxnPrewrite_ok_loop hPok)

/-- C3 witness: a concrete DocumentAdd request holding a document with id 0
is rejected with the illegal-parameter error and nothing reaches storage,
while a concrete accepted prewrite request has all mutation-key ids
legal. -/
theorem document_id_validation_witness :
    ValidateDocumentAddRequest 4096 33554432 UpstreamChecks.allOk ⟨1, [⟨0⟩], 0, 0⟩
      = ⟨Errno.eillegalParamteters,
         "Param document id is not allowed to be zero, INT64_MAX or negative"⟩
    ∧ (DoDocumentAdd 4096 33554432 UpstreamChecks.allOk ⟨1, [⟨0⟩], 0, 0⟩
        Status.OK).storageCalled = false
    ∧ ∀ m ∈ [(⟨Op.put, false, 5, 5, false⟩ : Mutation)],
        DocumentCodec.IsLegalDocumentId m.key_document_id = true :=
  document_id_validation 1024 4096 33554432 UpstreamChecks.allOk UpstreamChecks.allOk
    ⟨1, [⟨0⟩], 0, 0⟩ ⟨[⟨Op.put, false, 5, 5, false⟩], false, 1, 1, 1, 0⟩ Status.OK
    rfl (by norm_num) (by norm_num) (by norm_num) (by norm_num) rfl rfl
    ⟨⟨0⟩, by simp, Or.inl rfl⟩ (by rfl)

/-- C4 counterexample: a document TxnScan request whose limit (2) exceeds
stream_message_max_limit_size (1) is not handled by streaming: its
validation fails, and likewise for a DocumentSearchAll request, so such
requests are rejected rather than forced to stream. -/
theorem scan_over_limit_not_streamed_counterexample :
    (ValidateTxnScanRequestIndex 1 UpstreamChecks.allOk ⟨2, 1, 0, false⟩).code ≠ Errno.ok
    ∧ (ValidateDocumentSearchAllRequest 1 UpstreamChecks.allOk ⟨1, 2⟩).code ≠ Errno.ok := by
  refine ⟨?_, ?_⟩ <;> intro h <;> exact Errno.noConfusion h

/-- C4 amended: any document TxnScan or DocumentSearchAll request whose
limit exceeds the server-configured stream_message_max_limit_size is
rejected by validation with the EILLEGAL_PARAMTETERS error "param limit
beyond max limit" before any engine or stream work is done, rather than
being forced to stream. -/
theorem scan_over_limit_rejected (maxLimit : Int) (ext : UpstreamChecks)
    (req : TxnScanRequest) (reqSA : DocumentSearchAllRequest) (stg stgSA : Status)
    (hml : 0 ≤ maxLimit)
    (hlim : req.limit > maxLimit)
    (hrf : ext.regionFound = true)
    (hep : ext.validateRegionEpoch.code = Errno.ok)
    (hrid : reqSA.region_id ≠ 0)
    (hlimSA : reqSA.stream_limit > maxLimit) :
    ValidateTxnScanRequestIndex maxLimit ext req
      = ⟨Errno.eillegalParamteters, "param limit beyond max limit"⟩
    ∧ (DoTxnScanDocument maxLimit ext req stg).storageCalled = false
    ∧ ValidateDocumentSearchAllRequest maxLimit ext reqSA
      = ⟨Errno.eillegalParamteters, "param limit beyond max limit"⟩
    ∧ (DoDocumentSearchAll maxLimit ext reqSA stgSA).storageCalled = false := by
  have hpos : ¬ (req.limit ≤ 0 ∧ req.stream_limit ≤ 0) := by
    intro hc; omega
  have hposSA : ¬ reqSA.stream_limit ≤ 0 := by omega
  have hv : ValidateTxnScanRequestIndex maxLimit ext req
      = ⟨Errno.eillegalParamteters, "param limit beyond max limit"⟩ := by
    unfold ValidateTxnScanRequestIndex
    rw [if_neg hpos, if_pos (Or.inl hlim)]
  have hvSA : ValidateDocumentSearchAllRequest maxLimit ext reqSA
      = ⟨Errno.eillegalParamteters, "param limit beyond max limit"⟩ := by
    simp [ValidateDocumentSearchAllRequest, hrf, hep, hrid, hposSA, hlimSA]
  refine ⟨hv, ?_, hvSA, ?_⟩
  · simp [DoTxnScanDocument, hv]
  · simp [DoDocumentSearchAll, hvSA]

/-- C4 amended witness: concrete over-limit requests (limit 2 against a cap
of 1) are rejected with the illegal-parameter error and no engine work
runs. -/
theorem scan_over_limit_rejected_witness :
    ValidateTxnScanRequestIndex 1 UpstreamChecks.allOk ⟨2, 1, 0, false⟩
      = ⟨Errno.eillegalParamteters, "param limit beyond max limit"⟩
    ∧ (DoTxnScanDocument 1 UpstreamChecks.allOk ⟨2, 1, 0, false⟩ Status.OK).storageCalled
        = false
    ∧ ValidateDocumentSearchAllRequest 1 UpstreamChecks.allOk ⟨1, 2⟩
      = ⟨Errno.eillegalParamteters, "param limit beyond max limit"⟩
    ∧ (DoDocumentSearchAll 1 UpstreamChecks.allOk ⟨1, 2⟩ Status.OK).storageCalled = false :=
  scan_over_limit_rejected 1 UpstreamChecks.allOk ⟨2, 1, 0, false⟩ ⟨1, 2⟩
    Status.OK Status.OK (by norm_num) (by norm_num) rfl rfl (by norm_num) (by norm_num)

/-- Helper: zipping the extracted ids with the extracted values recovers the
per-entry processing map over the batch. -/
lemma extract_zip (normalizeVec : Vec → Vec) (nrm : Bool) (batch : List (Int × Vec)) :
    (extractVectorIds batch).zip (extractVectorValues normalizeVec nrm batch)
      = batch.map (fun e => (e.1, extractVectorValue normalizeVec nrm e.2)) := by
  induction batch with
  | nil => rfl
  | cons a l ih =>
      simp only [extractVectorIds, extractVectorValues, List.map_cons,
        List.zip_cons_cons, List.cons.injEq] at ih ⊢
      exact ⟨trivial, ih⟩

/-- Helper: mapping an id-preserving function over a list holding no entry
with the given id yields nothing under the id filter. -/
lemma filter_map_eq_nil {α : Type} (g : Int × Vec → Int × α)
    (hg : ∀ e, (g e).1 = e.1) (l : List (Int × Vec)) (i : Int)
    (h : ∀ e ∈ l, e.1 ≠ i) :
    (l.map g).filter (fun e => e.1 == i) = [] := by
  induction l with
  | nil => rfl
  | cons a t ih =>
      simp only [List.map_cons, List.filter_cons]
      have ha : ((g a).1 == i) = false := by
        rw [hg a]; exact beq_false_of_ne (h a (List.mem_cons_self a t))
      rw [ha]
      simp only [Bool.false_eq_true, if_false]
      exact ih (fun e he => h e (List.mem_cons_of_mem a he))

/-- Helper: over a list with duplicate-free ids, the id filter of an
id-preserving map returns exactly the image of the matching entry. -/
lemma filter_map_single {α : Type} (g : Int × Vec → Int × α)
    (hg : ∀ e, (g e).1 = e.1) (l : List (Int × Vec)) (b : Int × Vec)
    (hnd : (l.map Prod.fst).Nodup) (hb : b ∈ l) :
    (l.map g).filter (fun e => e.1 == b.1) = [g b] := by
  induction l with
  | nil => cases hb
  | cons a t ih =>
      simp only [List.map_cons, List.nodup_cons] at hnd
      rcases List.mem_cons.mp hb with h1 | h1
      · subst h1
        simp only [List.map_cons, List.filter_cons]
        have ha : ((g b).1 == b.1) = true := by rw [hg b]; exact beq_self_eq_true _
        rw [ha]
        simp only [if_pos]
        have htail : ∀ e ∈ t, e.1 ≠ b.1 := by
          intro e he hc
          exact hnd.1 (hc ▸ List.mem_map_of_mem Prod.fst he)
        rw [filter_map_eq_nil g hg t b.1 htail]
      · simp only [List.map_cons, List.filter_cons]
        have hne : a.1 ≠ b.1 := by
          intro hc
          exact hnd.1 (hc ▸ List.mem_map_of_mem Prod.fst h1)
        have ha : ((g a).1 == b.1) = false := by
          rw [hg a]; exact beq_false_of_ne hne
        rw [ha]
        simp only [Bool.false_eq_true, if_false]
        exact ih hnd.2 h1

/-- Helper: after the two-phase remove step of AddOrUpsert, no surviving old
entry carries an id of the incoming batch. -/
lemma afterRemove_filter_nil (s : VectorIndexFlat) (ids : List Int) (i : Int)
    (hi : i ∈ ids) :
    ((if s.entries.isEmpty = true then s.entries
      else if (VectorIndexFlat.GetExistVectorIds s ids).isEmpty = true then s.entries
      else VectorIndexFlat.removeIds s.entries
        (VectorIndexFlat.GetExistVectorIds s ids)).filter
          (fun e => e.1 == i)) = [] := by
  apply List.filter_eq_nil_iff.mpr
  intro e he hc
  have hei : e.1 = i := by simpa using hc
  split at he
  case isTrue h =>
    rw [List.isEmpty_iff] at h
    rw [h] at he
    cases he
  case isFalse h =>
    split at he
    case isTrue h2 =>
      have hany : s.entries.any (fun x => x.1 == i) = true :=
        List.any_eq_true.mpr ⟨e, he, by simp [hei]⟩
      have himem : i ∈ VectorIndexFlat.GetExistVectorIds s ids :=
        List.mem_filter.mpr ⟨hi, hany⟩
      rw [List.isEmpty_iff] at h2
      rw [h2] at himem
      cases himem
    case isFalse h2 =>
      unfold VectorIndexFlat.removeIds at he
      have hmem := List.mem_filter.mp he
      have hany : s.entries.any (fun x => x.1 == i) = true :=
        List.any_eq_true.mpr ⟨e, hmem.1, by simp [hei]⟩
      have himem : i ∈ VectorIndexFlat.GetExistVectorIds s ids :=
        List.mem_filter.mpr ⟨hi, hany⟩
      have hnc := hmem.2
      rw [hei] at hnc
      simp at hnc
      exact hnc himem

/-- C2: an AddOrUpsert batch on the flat vector index first removes every
already-present id and then adds the new vectors under the write lock, so
afterwards the index holds, for every id of the batch, exactly one entry:
the newly supplied vector (after the configured value extraction). -/
theorem VectorIndexFlat.addOrUpsert_unique (normalizeVec : Vec → Vec)
    (s : VectorIndexFlat) (batch : List (Int × Vec))
    (hne : batch ≠ [])
    (hdim : checkVectorDimension batch s.dimension = true)
    (hnodup : (extractVectorIds batch).Nodup) :
    (VectorIndexFlat.AddOrUpsert normalizeVec s batch).1 = Status.OK
    ∧ ∀ iv ∈ batch,
        ((VectorIndexFlat.AddOrUpsert normalizeVec s batch).2).entries.filter
            (fun e => e.1 == iv.1)
          = [(iv.1, extractVectorValue normalizeVec s.normalize iv.2)] := by
  have h1 : batch.isEmpty = false := isEmpty_false_of_ne_nil hne
  have hres : VectorIndexFlat.AddOrUpsert normalizeVec s batch
      = (Status.OK,
         { s with entries :=
            (if s.entries.isEmpty = true then s.entries
             else if (VectorIndexFlat.GetExistVectorIds s
                 (extractVectorIds batch)).isEmpty = true then s.entries
             else VectorIndexFlat.removeIds s.entries
               (VectorIndexFlat.GetExistVectorIds s (extractVectorIds batch)))
            ++ batch.map (fun e =>
                (e.1, extractVectorValue normalizeVec s.normalize e.2)) }) := by
    unfold VectorIndexFlat.AddOrUpsert
    rw [h1]
    simp only [Bool.false_eq_true, if_false, hdim, not_true, Bool.true_eq_false]
    rw [if_neg (not_not_intro hnodup)]
    rw [extract_zip]
  refine ⟨by rw [hres], ?_⟩
  intro iv hiv
  rw [hres]
  simp only [List.filter_append]
  rw [afterRemove_filter_nil s (extractVectorIds batch) iv.1
    (List.mem_map_of_mem Prod.fst hiv)]
  rw [List.nil_append]
  exact filter_map_single
    (fun e => (e.1, extractVectorValue normalizeVec s.normalize e.2))
    (fun e => rfl) batch iv hnodup hiv

/-- C2 witness: upserting id 7 with a new vector into a flat index already
holding id 7 leaves exactly one entry for id 7, the new vector. -/
theorem VectorIndexFlat.addOrUpsert_unique_witness :
    (VectorIndexFlat.AddOrUpsert id
        ⟨MetricType.l2, 1, false, MetricType.l2, [(7, ([(2 : ℚ)] : Vec))]⟩
        [(7, ([(3 : ℚ)] : Vec))]).1 = Status.OK
    ∧ ∀ iv ∈ [((7 : Int), ([(3 : ℚ)] : Vec))],
        ((VectorIndexFlat.AddOrUpsert id
            ⟨MetricType.l2, 1, false, MetricType.l2, [(7, ([(2 : ℚ)] : Vec))]⟩
            [(7, ([(3 : ℚ)] : Vec))]).2).entries.filter (fun e => e.1 == iv.1)
          = [(iv.1, extractVectorValue id false iv.2)] :=
  VectorIndexFlat.addOrUpsert_unique id
    ⟨MetricType.l2, 1, false, MetricType.l2, [(7, ([(2 : ℚ)] : Vec))]⟩
    [(7, ([(3 : ℚ)] : Vec))] (by simp) (by rfl) (by simp [extractVectorIds])

/-- Helper: the constructor state for the cosine metric. -/
lemma new_cosine (dim : Nat) :
    VectorIndexFlat.new MetricType.cosine dim
      = ⟨MetricType.cosine, dim, true, MetricType.innerProduct, []⟩ := rfl

/-- C9: constructing a flat vector index with the cosine metric produces an
inner-product raw index with normalization enabled, so every vector of an
AddOrUpsert batch is stored normalized and every Search query is normalized
before being handed to the underlying index (cosine is normalize followed
by inner product). -/
theorem VectorIndexFlat.cosine_normalizes (normalizeVec : Vec → Vec)
    (rawSearch : List (Int × Vec) → List Vec → Nat → List (Int × ℚ))
    (dim : Nat) (batch : List (Int × Vec)) (topk : Nat)
    (hne : batch ≠ [])
    (hdim : checkVectorDimension batch dim = true)
    (hnodup : (extractVectorIds batch).Nodup)
    (htopk : topk ≠ 0) :
    (VectorIndexFlat.new MetricType.cosine dim).normalize = true
    ∧ (VectorIndexFlat.new MetricType.cosine dim).rawMetric = MetricType.innerProduct
    ∧ (VectorIndexFlat.AddOrUpsert normalizeVec
          (VectorIndexFlat.new MetricType.cosine dim) batch).2.entries
        = batch.map (fun e => (e.1, normalizeVec e.2))
    ∧ (VectorIndexFlat.Search normalizeVec rawSearch
          (VectorIndexFlat.new MetricType.cosine dim) batch topk).queryPassed
        = Option.some (batch.map (fun e => normalizeVec e.2)) := by
  have h1 : batch.isEmpty = false := isEmpty_false_of_ne_nil hne
  refine ⟨rfl, rfl, ?_, ?_⟩
  · unfold VectorIndexFlat.AddOrUpsert
    rw [new_cosine]
    simp only [h1, Bool.false_eq_true, if_false, hdim, not_true]
    rw [if_neg (not_not_intro hnodup)]
    simp [extract_zip, extractVectorValue]
  · unfold VectorIndexFlat.Search
    rw [new_cosine]
    simp only [h1, Bool.false_eq_true, if_false, hdim, not_true]
    rw [if_neg htopk]
    simp [extractVectorValues, extractVectorValue]

/-- C9 witness: a concrete cosine index of dimension 1 stores the normalized
vector on upsert and hands the normalized query to the traversal. -/
theorem VectorIndexFlat.cosine_normalizes_witness :
    (VectorIndexFlat.new MetricType.cosine 1).normalize = true
    ∧ (VectorIndexFlat.new MetricType.cosine 1).rawMetric = MetricType.innerProduct
    ∧ (VectorIndexFlat.AddOrUpsert id (VectorIndexFlat.new MetricType.cosine 1)
          [(1, ([(1 : ℚ)] : Vec))]).2.entries
        = [(1, ([(1 : ℚ)] : Vec))].map (fun e => (e.1, id e.2))
    ∧ (VectorIndexFlat.Search id (fun _ _ _ => [])
          (VectorIndexFlat.new MetricType.cosine 1) [(1, ([(1 : ℚ)] : Vec))] 1).queryPassed
        = Option.some ([(1, ([(1 : ℚ)] : Vec))].map (fun e => id e.2)) :=
  VectorIndexFlat.cosine_normalizes id (fun _ _ _ => []) 1 [(1, ([(1 : ℚ)] : Vec))] 1
    (by simp) (by rfl) (by simp [extractVectorIds]) (by norm_num)

end Dingo
